import Mathlib

/-!
Shallow embedding of the cost-tracker repository (main.go) in Lean 4.

The embedding covers the data model (ServiceCost, CostByTime, and the AWS
Cost Explorer response shapes), the report builder `GetCostsByService`,
the presenter `displayCosts`, and the success notification message built
in `getCostsCmd`.  Go pointers become `Option`, the Go `map[string]MetricValue`
becomes an association list with first-match lookup, nil-pointer dereference
becomes an explicit `panic` outcome, and Go's `time` date arithmetic and
"2006-01-02" formatting are embedded as day-number arithmetic plus a
civil-date conversion.
-/

namespace CostTracker

/-- Constant `MetricBlendedCost = "BlendedCost"` from main.go. -/
def MetricBlendedCost : String := "BlendedCost"

/-- Constant `GroupByServiceKey = "SERVICE"` from main.go. -/
def GroupByServiceKey : String := "SERVICE"

/-- Constant `DefaultDays = 30` from main.go. -/
def DefaultDays : Int := 30

/-- `types.MetricValue`: both fields are `*string` in the SDK, so `Option`. -/
structure MetricValue where
  Amount : Option String
  Unit : Option String
deriving Repr, DecidableEq

/-- `types.Group`: grouping keys plus the metric map (association list). -/
structure Group where
  Keys : List String
  Metrics : List (String × MetricValue)
deriving Repr, DecidableEq

/-- `types.DateInterval`: `Start` and `End` are `*string` in the SDK. -/
structure DateInterval where
  Start : Option String
  End : Option String
deriving Repr, DecidableEq

/-- `types.ResultByTime`: `TimePeriod` is a pointer, so `Option`. -/
structure ResultByTime where
  TimePeriod : Option DateInterval
  Groups : List Group
deriving Repr, DecidableEq

/-- `costexplorer.GetCostAndUsageOutput`, restricted to the field read by main.go. -/
structure GetCostAndUsageOutput where
  ResultsByTime : List ResultByTime
deriving Repr, DecidableEq

/-- `types.GroupDefinition` as used in the request. -/
structure GroupDefinition where
  «Type» : String
  Key : String
deriving Repr, DecidableEq

/-- `costexplorer.GetCostAndUsageInput` as constructed by `GetCostsByService`. -/
structure GetCostAndUsageInput where
  TimePeriodStart : String
  TimePeriodEnd : String
  Granularity : String
  Metrics : List String
  GroupBy : List GroupDefinition
deriving Repr, DecidableEq

/-- `ServiceCost` from main.go. -/
structure ServiceCost where
  ServiceName : String
  Amount : String
  Unit : String
deriving Repr, DecidableEq

/-- `CostByTime` from main.go. -/
structure CostByTime where
  Start : String
  End : String
  ServiceCosts : List ServiceCost
deriving Repr, DecidableEq

/-- One `logger.Warnw("Metric not found or incomplete for service", ...)` record,
carrying the structured fields the Go code attaches. -/
structure Warning where
  metric : String
  service : String
  periodStart : String
  periodEnd : String
deriving Repr, DecidableEq

/-- Possible outcomes of running the Go function body: a normal return value,
a returned error (Go `error` carrying its message), or a runtime panic
(nil-pointer dereference). -/
inductive Outcome (α : Type) where
  | ok : α → Outcome α
  | err : String → Outcome α
  | panic : Outcome α
deriving Repr, DecidableEq

/-! ### Go `time` date arithmetic and `"2006-01-02"` formatting

`time.Now()` is modelled as a civil day number (days since 1970-01-01);
`AddDate(0, 0, -days)` is subtraction of day numbers, and
`Format("2006-01-02")` converts the day number to the Gregorian calendar
date, zero-padded. -/

/-- Convert a day number (days since 1970-01-01) to a Gregorian civil date
`(year, month, day)`; standard era-based conversion. -/
def civilFromDays (z0 : Int) : Int × Int × Int :=
  let z := z0 + 719468
  let era : Int := (if 0 ≤ z then z else z - 146096) / 146097
  let doe : Int := z - era * 146097
  let yoe : Int := (doe - doe / 1460 + doe / 36524 - doe / 146096) / 365
  let y : Int := yoe + era * 400
  let doy : Int := doe - (365 * yoe + yoe / 4 - yoe / 100)
  let mp : Int := (5 * doy + 2) / 153
  let d : Int := doy - (153 * mp + 2) / 5 + 1
  let m : Int := mp + (if mp < 10 then 3 else -9)
  (y + (if m ≤ 2 then 1 else 0), m, d)

/-- Zero-pad a (nonnegative) number to two digits, as Go's "01"/"02" verbs do. -/
def pad2 (n : Int) : String :=
  if n < 10 then "0" ++ toString n else toString n

/-- Zero-pad a (nonnegative) year to four digits, as Go's "2006" verb does. -/
def pad4 (n : Int) : String :=
  if n < 10 then "000" ++ toString n
  else if n < 100 then "00" ++ toString n
  else if n < 1000 then "0" ++ toString n
  else toString n

/-- Go `t.Format("2006-01-02")` (constant `AWSDateFormat`) on the day number `z`. -/
def formatDate (z : Int) : String :=
  let c := civilFromDays z
  pad4 c.1 ++ "-" ++ pad2 c.2.1 ++ "-" ++ pad2 c.2.2

/-! ### The report builder -/

/-- `serviceName := "N/A"; if len(group.Keys) > 0 { serviceName = group.Keys[0] }`. -/
def serviceNameOf (g : Group) : String :=
  match g.Keys with
  | [] => "N/A"
  | k :: _ => k

/-- The per-group body of the inner loop of `GetCostsByService`: look up the
blended-cost metric in the group's metric map; if it is present with both
`Amount` and `Unit` non-nil, produce the `ServiceCost`, else produce nothing
(the Go code `continue`s after a warning). -/
def processGroup (g : Group) : Option ServiceCost :=
  match g.Metrics.lookup MetricBlendedCost with
  | none => none
  | some metric =>
    match metric.Amount, metric.Unit with
    | some a, some u => some { ServiceName := serviceNameOf g, Amount := a, Unit := u }
    | _, _ => none

/-- The warning `logger.Warnw` emits when a group's metric is missing or
incomplete. -/
def warnOf (pStart pEnd : String) (g : Group) : Warning :=
  { metric := MetricBlendedCost, service := serviceNameOf g,
    periodStart := pStart, periodEnd := pEnd }

/-- The inner loop of `GetCostsByService` over one bucket's `Groups`:
returns the appended `ServiceCosts` and the warnings logged along the way,
both in loop order. -/
def processGroups (pStart pEnd : String) : List Group → List ServiceCost × List Warning
  | [] => ([], [])
  | g :: gs =>
    let rest := processGroups pStart pEnd gs
    match processGroup g with
    | some sc => (sc :: rest.1, rest.2)
    | none => (rest.1, warnOf pStart pEnd g :: rest.2)

/-- The outer loop of `GetCostsByService` over `result.ResultsByTime`.
`*resultByTime.TimePeriod.Start` / `.End` dereference nil pointers when the
bucket lacks period bounds; that aborts the loop as a panic (`none` in the
first component), discarding the periods built so far but keeping the
warnings already logged. -/
def processAll : List ResultByTime → Option (List CostByTime) × List Warning
  | [] => (some [], [])
  | r :: rs =>
    match r.TimePeriod with
    | none => (none, [])
    | some tp =>
      match tp.Start, tp.End with
      | some s, some e =>
        let g := processGroups s e r.Groups
        let rest := processAll rs
        ((rest.1).map (fun l => { Start := s, End := e, ServiceCosts := g.1 } :: l),
         g.2 ++ rest.2)
      | _, _ => (none, [])

/-- The request `GetCostsByService` builds for the collaborator, given the
current day number and the lookback in days.  `endDate := time.Now()`,
`startDate := endDate.AddDate(0, 0, -days)`, monthly granularity, the single
blended-cost metric, grouped by the service dimension. -/
def mkInput (now days : Int) : GetCostAndUsageInput :=
  { TimePeriodStart := formatDate (now - days),
    TimePeriodEnd := formatDate now,
    Granularity := "MONTHLY",
    Metrics := [MetricBlendedCost],
    GroupBy := [{ «Type» := "DIMENSION", Key := GroupByServiceKey }] }

/-- The result of running `GetCostsByService`: its outcome (report, error, or
panic), the sequence of calls made to the cost-query collaborator, and the
warnings logged. -/
structure RunResult where
  outcome : Outcome (List CostByTime)
  calls : List GetCostAndUsageInput
  warnings : List Warning
deriving Repr, DecidableEq

/-- `(ct *CostTracker) GetCostsByService(ctx, days)` from main.go.  The
collaborator `client` stands for `ct.client.GetCostAndUsage`; `now` is the
day number of `time.Now()`. -/
def GetCostsByService (client : GetCostAndUsageInput → Except String GetCostAndUsageOutput)
    (now days : Int) : RunResult :=
  if days ≤ 0 then
    { outcome := .err ("days must be a positive integer, got " ++ toString days),
      calls := [], warnings := [] }
  else
    let input := mkInput now days
    match client input with
    | .error e =>
      { outcome := .err ("failed to get cost data from AWS Cost Explorer: " ++ e),
        calls := [input], warnings := [] }
    | .ok result =>
      let p := processAll result.ResultsByTime
      match p.1 with
      | none => { outcome := .panic, calls := [input], warnings := p.2 }
      | some costs => { outcome := .ok costs, calls := [input], warnings := p.2 }

/-! ### The presenter -/

/-- Left-align a string in a field of `w` columns, Go's `%-30s` verb. -/
def padRight (s : String) (w : Nat) : String :=
  s ++ String.mk (List.replicate (w - s.length) ' ')

/-- The per-period lines `displayCosts` prints for one `CostByTime`. -/
def displayPeriod (period : CostByTime) : List String :=
  ("Period: " ++ period.Start ++ " to " ++ period.End) ::
    (if period.ServiceCosts.isEmpty then
      ["  No service costs found for this period."]
    else
      period.ServiceCosts.map (fun sc =>
        "  " ++ padRight sc.ServiceName 30 ++ ": " ++ sc.Amount ++ " " ++ sc.Unit)) ++
    [""]

/-- `displayCosts(costs, days)` from main.go, as the list of lines printed to
standard output (each `Printf`/`Println` contributes one line; the trailing
`Println()` contributes an empty line). -/
def displayCosts (costs : List CostByTime) (days : Int) : List String :=
  ("AWS Costs for the last " ++ toString days ++ " days:") ::
  "=====================================" ::
  (if costs.isEmpty then
    ["No cost data found for the specified period."]
  else
    costs.flatMap displayPeriod)

/-! ### The CLI success notification -/

/-- `slackMessage := fmt.Sprintf("Successfully fetched AWS costs for the last %d days.", days)`
from `getCostsCmd` in main.go. -/
def slackMessage (days : Int) : String :=
  "Successfully fetched AWS costs for the last " ++ toString days ++ " days."

/-- The happy-path tail of `getCostsCmd.Run` after the cost tracker is built:
run the report builder and, on success, display the costs and send the
success notification; on error, send the error notification and die; a panic
sends nothing.  Returns the console lines and the messages handed to
`sendSlackNotification`. -/
def getCostsCmdRun (client : GetCostAndUsageInput → Except String GetCostAndUsageOutput)
    (now days : Int) : List String × List String :=
  let r := GetCostsByService client now days
  match r.outcome with
  | .err e => ([], ["Cost Tracker Error: Error getting costs: " ++ e])
  | .panic => ([], [])
  | .ok costs => (displayCosts costs days, [slackMessage days])

/-- The start/end bounds of a bucket, when all three pointers on the path are
non-nil. -/
def bucketBounds (r : ResultByTime) : Option (String × String) :=
  match r.TimePeriod with
  | none => none
  | some tp =>
    match tp.Start, tp.End with
    | some s, some e => some (s, e)
    | _, _ => none

/-! ### Concrete sample data (mirroring the fixtures in main_test.go) -/

/-- The grouped entry from the "successful retrieval" test fixture. -/
def sampleGroup : Group :=
  { Keys := ["Amazon EC2"],
    Metrics := [("BlendedCost", { Amount := some "100.00", Unit := some "USD" })] }

/-- The single bucket from the round-trip fixture. -/
def sampleBucket : ResultByTime :=
  { TimePeriod := some { Start := some "2024-01-01", End := some "2024-01-31" },
    Groups := [sampleGroup] }

/-- The full round-trip response. -/
def sampleResponse : GetCostAndUsageOutput :=
  { ResultsByTime := [sampleBucket] }

/-- The report the round-trip fixture must produce. -/
def sampleReport : List CostByTime :=
  [{ Start := "2024-01-01", End := "2024-01-31",
     ServiceCosts := [{ ServiceName := "Amazon EC2", Amount := "100.00", Unit := "USD" }] }]

/-- A grouped entry with an empty metric map ("metric not found" fixture). -/
def badGroup : Group :=
  { Keys := ["Amazon S3"], Metrics := [] }

/-- A bucket whose `TimePeriod` pointer is nil. -/
def nilPeriodBucket : ResultByTime :=
  { TimePeriod := none, Groups := [] }

/-- A collaborator that always returns an empty response. -/
def emptyClient : GetCostAndUsageInput → Except String GetCostAndUsageOutput :=
  fun _ => Except.ok { ResultsByTime := [] }

/-- A collaborator that always returns the round-trip response. -/
def sampleClient : GetCostAndUsageInput → Except String GetCostAndUsageOutput :=
  fun _ => Except.ok sampleResponse

/-- A collaborator that always fails, as in the "API error" fixture. -/
def errorClient : GetCostAndUsageInput → Except String GetCostAndUsageOutput :=
  fun _ => Except.error "simulated AWS API error"

/-- A bucket with both period bounds present. -/
def mkBucket (s e : String) (gs : List Group) : ResultByTime :=
  { TimePeriod := some { Start := some s, End := some e }, Groups := gs }

/-- A collaborator that always returns the given response. -/
def constClient (resp : GetCostAndUsageOutput) :
    GetCostAndUsageInput → Except String GetCostAndUsageOutput :=
  fun _ => Except.ok resp

/-! ### Helper lemmas -/

lemma bucketBounds_eq_some_iff (r : ResultByTime) (s e : String) :
    bucketBounds r = some (s, e) ↔ r.TimePeriod = some { Start := some s, End := some e } := by
  obtain ⟨tp, gs⟩ := r
  cases tp with
  | none => simp [bucketBounds]
  | some i =>
    obtain ⟨st, en⟩ := i
    cases st <;> cases en <;> simp [bucketBounds]

lemma bucketBounds_isSome_iff (r : ResultByTime) :
    (bucketBounds r).isSome ↔
      ∃ s e, r.TimePeriod = some { Start := some s, End := some e } := by
  obtain ⟨tp, gs⟩ := r
  cases tp with
  | none => simp [bucketBounds]
  | some i =>
    obtain ⟨st, en⟩ := i
    cases st <;> cases en <;> simp [bucketBounds]

lemma processAll_cons_some (s e : String) (gs : List Group) (rs : List ResultByTime) :
    processAll ({ TimePeriod := some { Start := some s, End := some e }, Groups := gs } :: rs) =
      (((processAll rs).1).map
        (fun l => { Start := s, End := e, ServiceCosts := (processGroups s e gs).1 } :: l),
       (processGroups s e gs).2 ++ (processAll rs).2) := rfl

lemma processGroups_append (s e : String) (l1 l2 : List Group) :
    processGroups s e (l1 ++ l2) =
      ((processGroups s e l1).1 ++ (processGroups s e l2).1,
       (processGroups s e l1).2 ++ (processGroups s e l2).2) := by
  induction l1 with
  | nil => simp [processGroups]
  | cons g gs ih =>
    cases hpg : processGroup g <;>
      simp [List.cons_append, processGroups, hpg, ih]

lemma processAll_valid (bs : List ResultByTime)
    (hv : ∀ r ∈ bs, (bucketBounds r).isSome) :
    ∃ cs, (processAll bs).1 = some cs ∧ cs.length = bs.length ∧
      ∀ (i : Nat) (h1 : i < cs.length) (h2 : i < bs.length),
        bucketBounds (bs.get ⟨i, h2⟩) =
          some ((cs.get ⟨i, h1⟩).Start, (cs.get ⟨i, h1⟩).End) := by
  induction bs with
  | nil =>
    exact ⟨[], rfl, rfl, fun i h1 h2 => absurd h1 (by simp)⟩
  | cons r rs ih =>
    obtain ⟨s, e, htp⟩ := (bucketBounds_isSome_iff r).1 (hv r (by simp))
    obtain ⟨cs, hcs, hlen, hidx⟩ := ih (fun x hx => hv x (List.mem_cons_of_mem _ hx))
    obtain ⟨tp, gs⟩ := r
    simp only [ResultByTime.TimePeriod] at htp
    subst htp
    refine ⟨{ Start := s, End := e, ServiceCosts := (processGroups s e gs).1 } :: cs, ?_, ?_, ?_⟩
    · simp [processAll_cons_some, hcs]
    · simp [hlen]
    · intro i h1 h2
      cases i with
      | zero =>
        simp [List.get, bucketBounds]
      | succ n =>
        simpa [List.get] using hidx n (by simpa using h1) (by simpa using h2)

lemma processAll_none (bs : List ResultByTime) :
    (∃ r ∈ bs, bucketBounds r = none) → (processAll bs).1 = none := by
  induction bs with
  | nil => intro h; simp at h
  | cons r rs ih =>
    intro h
    obtain ⟨x, hx, hbad⟩ := h
    obtain ⟨tp, gs⟩ := r
    cases tp with
    | none => rfl
    | some i =>
      obtain ⟨st, en⟩ := i
      cases st with
      | none => rfl
      | some s =>
        cases en with
        | none => rfl
        | some e =>
          rcases List.mem_cons.1 hx with rfl | hx2
          · simp [bucketBounds] at hbad
          · simp [processAll_cons_some, ih ⟨x, hx2, hbad⟩]

lemma processAll_append_valid (bs1 bs2 : List ResultByTime)
    (hv : ∀ r ∈ bs1, (bucketBounds r).isSome) :
    ∃ cs1, (processAll bs1).1 = some cs1 ∧
      (processAll (bs1 ++ bs2)).1 = ((processAll bs2).1).map (fun l => cs1 ++ l) ∧
      (processAll (bs1 ++ bs2)).2 = (processAll bs1).2 ++ (processAll bs2).2 := by
  induction bs1 with
  | nil =>
    refine ⟨[], rfl, ?_, by simp [processAll]⟩
    simp only [List.nil_append]
    cases (processAll bs2).1 <;> simp
  | cons r rs ih =>
    obtain ⟨s, e, htp⟩ := (bucketBounds_isSome_iff r).1 (hv r (by simp))
    obtain ⟨cs1, hcs1, hfst, hsnd⟩ := ih (fun x hx => hv x (List.mem_cons_of_mem _ hx))
    obtain ⟨tp, gs⟩ := r
    simp only [ResultByTime.TimePeriod] at htp
    subst htp
    refine ⟨{ Start := s, End := e, ServiceCosts := (processGroups s e gs).1 } :: cs1,
      by simp [processAll_cons_some, hcs1], ?_, ?_⟩
    · simp only [List.cons_append, processAll_cons_some, hfst]
      cases (processAll bs2).1 <;> simp
    · simp [processAll_cons_some, hsnd]

lemma GetCostsByService_ok
    (client : GetCostAndUsageInput → Except String GetCostAndUsageOutput)
    (now days : Int) (resp : GetCostAndUsageOutput) (hdays : 0 < days)
    (hresp : client (mkInput now days) = Except.ok resp) :
    GetCostsByService client now days =
      { outcome :=
          match (processAll resp.ResultsByTime).1 with
          | none => Outcome.panic
          | some cs => Outcome.ok cs,
        calls := [mkInput now days],
        warnings := (processAll resp.ResultsByTime).2 } := by
  have hd : ¬ days ≤ 0 := by omega
  unfold GetCostsByService
  rw [if_neg hd]
  simp only [hresp]
  cases hp : (processAll resp.ResultsByTime).1 <;> simp [hp]

/-! ### Claim theorems -/

/-- Claim C3: for every `lookback_days ≤ 0`, `GetCostsByService` returns the
invalid-argument error and makes zero calls to the cost-query collaborator. -/
theorem C3_invalid_days_rejected
    (client : GetCostAndUsageInput → Except String GetCostAndUsageOutput)
    (now days : Int) (h : days ≤ 0) :
    GetCostsByService client now days =
      { outcome := Outcome.err ("days must be a positive integer, got " ++ toString days),
        calls := [], warnings := [] } := by
  simp [GetCostsByService, h]

/-- Witness for C3 at `days = 0`. -/
theorem C3_invalid_days_rejected_witness :
    (0 : Int) ≤ 0 ∧
    GetCostsByService emptyClient 0 0 =
      { outcome := Outcome.err ("days must be a positive integer, got " ++ toString (0 : Int)),
        calls := [], warnings := [] } :=
  ⟨by decide, C3_invalid_days_rejected emptyClient 0 0 (by decide)⟩

/-- Claim C4: every collaborator error is returned wrapped with the contextual
text "failed to get cost data from AWS Cost Explorer", after exactly one call
(no retry), and no report is returned alongside it. -/
theorem C4_collaborator_error_wrapped
    (client : GetCostAndUsageInput → Except String GetCostAndUsageOutput)
    (now days : Int) (e : String) (hdays : 0 < days)
    (herr : client (mkInput now days) = Except.error e) :
    GetCostsByService client now days =
      { outcome := Outcome.err ("failed to get cost data from AWS Cost Explorer: " ++ e),
        calls := [mkInput now days], warnings := [] } := by
  have hd : ¬ days ≤ 0 := by omega
  simp [GetCostsByService, hd, herr]

/-- Witness for C4 with the always-failing collaborator. -/
theorem C4_collaborator_error_wrapped_witness :
    (0 : Int) < 30 ∧
    GetCostsByService errorClient 0 30 =
      { outcome := Outcome.err
          ("failed to get cost data from AWS Cost Explorer: " ++ "simulated AWS API error"),
        calls := [mkInput 0 30], warnings := [] } :=
  ⟨by decide, C4_collaborator_error_wrapped errorClient 0 30 "simulated AWS API error"
    (by decide) rfl⟩

/-- Claim C5: every emitted `ServiceCost` carries as `ServiceName` the entry's
first grouping key, or the sentinel "N/A" when the entry has no keys. -/
theorem C5_service_name_first_key (g : Group) (sc : ServiceCost)
    (h : processGroup g = some sc) :
    sc.ServiceName = g.Keys.headD "N/A" := by
  unfold processGroup at h
  rcases hl : g.Metrics.lookup MetricBlendedCost with _ | m
  · rw [hl] at h
    simp at h
  · rw [hl] at h
    obtain ⟨a, u⟩ := m
    cases a with
    | none => simp at h
    | some av =>
      cases u with
      | none => simp at h
      | some uv =>
        simp only [Option.some.injEq] at h
        subst h
        cases hk : g.Keys <;> simp [serviceNameOf, hk]

/-- Witness for C5 on the round-trip entry. -/
theorem C5_service_name_first_key_witness :
    ({ ServiceName := "Amazon EC2", Amount := "100.00", Unit := "USD" } : ServiceCost).ServiceName =
      sampleGroup.Keys.headD "N/A" :=
  C5_service_name_first_key sampleGroup
    { ServiceName := "Amazon EC2", Amount := "100.00", Unit := "USD" } rfl

/-- Claim C6: a collaborator response with zero buckets yields a report with
zero periods and no error, and rendering the empty report prints the
"no cost data found" line instead of failing. -/
theorem C6_empty_response_empty_report
    (client : GetCostAndUsageInput → Except String GetCostAndUsageOutput)
    (now days : Int) (hdays : 0 < days)
    (hresp : client (mkInput now days) = Except.ok { ResultsByTime := [] }) :
    (GetCostsByService client now days).outcome = Outcome.ok [] ∧
    displayCosts [] days =
      ["AWS Costs for the last " ++ toString days ++ " days:",
       "=====================================",
       "No cost data found for the specified period."] := by
  have hd : ¬ days ≤ 0 := by omega
  exact ⟨by simp [GetCostsByService, hd, hresp, processAll], by simp [displayCosts]⟩

/-- Witness for C6 with the empty-response collaborator. -/
theorem C6_empty_response_empty_report_witness :
    (GetCostsByService emptyClient 0 30).outcome = Outcome.ok [] ∧
    displayCosts [] 30 =
      ["AWS Costs for the last " ++ toString (30 : Int) ++ " days:",
       "=====================================",
       "No cost data found for the specified period."] :=
  C6_empty_response_empty_report emptyClient 0 30 (by decide) rfl

/-- Claim C8: for every positive lookback and every `now`, exactly one query is
issued, with end date `now`, start date `now - days` (both in `YYYY-MM-DD`),
monthly granularity, the single blended-cost metric, and grouping by the
service dimension. -/
theorem C8_single_query_parameters
    (client : GetCostAndUsageInput → Except String GetCostAndUsageOutput)
    (now days : Int) (hdays : 0 < days) :
    (GetCostsByService client now days).calls = [mkInput now days] ∧
    mkInput now days =
      { TimePeriodStart := formatDate (now - days),
        TimePeriodEnd := formatDate now,
        Granularity := "MONTHLY",
        Metrics := ["BlendedCost"],
        GroupBy := [{ «Type» := "DIMENSION", Key := "SERVICE" }] } := by
  have hd : ¬ days ≤ 0 := by omega
  refine ⟨?_, rfl⟩
  unfold GetCostsByService
  rw [if_neg hd]
  cases hc : client (mkInput now days) with
  | error e => simp [hc]
  | ok result =>
    cases hp : (processAll result.ResultsByTime).1 <;> simp [hc, hp]

/-- Witness for C8 at `now = 19753` (2024-01-31), `days = 30`. -/
theorem C8_single_query_parameters_witness :
    (GetCostsByService sampleClient 19753 30).calls = [mkInput 19753 30] ∧
    mkInput 19753 30 =
      { TimePeriodStart := formatDate (19753 - 30),
        TimePeriodEnd := formatDate 19753,
        Granularity := "MONTHLY",
        Metrics := ["BlendedCost"],
        GroupBy := [{ «Type» := "DIMENSION", Key := "SERVICE" }] } :=
  C8_single_query_parameters sampleClient 19753 30 (by decide)

/-- Counterexample for C9: the success message the code builds at
`days = 30` is "Successfully fetched AWS costs for the last 30 days.", not
"Successfully fetched costs for the last 30 days." as the claim states. -/
theorem C9_message_counterexample :
    slackMessage 30 ≠ "Successfully fetched costs for the last 30 days." := by
  decide

/-- Claim C9 (amended): on success the one-line message handed to the
notification collaborator is exactly
"Successfully fetched AWS costs for the last N days.", a function of `days`
alone, independent of the report's contents. -/
theorem C9_success_message
    (client : GetCostAndUsageInput → Except String GetCostAndUsageOutput)
    (now days : Int) (costs : List CostByTime)
    (h : (GetCostsByService client now days).outcome = Outcome.ok costs) :
    (getCostsCmdRun client now days).2 =
      ["Successfully fetched AWS costs for the last " ++ toString days ++ " days."] := by
  simp [getCostsCmdRun, h, slackMessage]

/-- Witness for C9 on the round-trip collaborator. -/
theorem C9_success_message_witness :
    (getCostsCmdRun sampleClient 19753 30).2 =
      ["Successfully fetched AWS costs for the last " ++ toString (30 : Int) ++ " days."] :=
  C9_success_message sampleClient 19753 30 sampleReport rfl

/-- Claim C1: for every valid collaborator response (every bucket carries its
period bounds), the report has exactly one `CostByTime` per time bucket, in
bucket order, with start and end taken verbatim from that bucket. -/
theorem C1_one_period_per_bucket
    (client : GetCostAndUsageInput → Except String GetCostAndUsageOutput)
    (now days : Int) (resp : GetCostAndUsageOutput) (hdays : 0 < days)
    (hresp : client (mkInput now days) = Except.ok resp)
    (hv : ∀ r ∈ resp.ResultsByTime, (bucketBounds r).isSome) :
    ∃ cs, (GetCostsByService client now days).outcome = Outcome.ok cs ∧
      cs.length = resp.ResultsByTime.length ∧
      ∀ (i : Nat) (h1 : i < cs.length) (h2 : i < resp.ResultsByTime.length),
        bucketBounds (resp.ResultsByTime.get ⟨i, h2⟩) =
          some ((cs.get ⟨i, h1⟩).Start, (cs.get ⟨i, h1⟩).End) := by
  have hd : ¬ days ≤ 0 := by omega
  obtain ⟨cs, hcs, hlen, hidx⟩ := processAll_valid resp.ResultsByTime hv
  exact ⟨cs, by simp [GetCostsByService, hd, hresp, hcs], hlen, hidx⟩

/-- Witness for C1 on the round-trip collaborator. -/
theorem C1_one_period_per_bucket_witness :
    ∃ cs, (GetCostsByService sampleClient 19753 30).outcome = Outcome.ok cs ∧
      cs.length = sampleResponse.ResultsByTime.length ∧
      ∀ (i : Nat) (h1 : i < cs.length) (h2 : i < sampleResponse.ResultsByTime.length),
        bucketBounds (sampleResponse.ResultsByTime.get ⟨i, h2⟩) =
          some ((cs.get ⟨i, h1⟩).Start, (cs.get ⟨i, h1⟩).End) :=
  C1_one_period_per_bucket sampleClient 19753 30 sampleResponse (by decide) rfl
    (by decide)

/-- Claim C7: the synthetic one-bucket, one-entry response produces exactly the
one-period report with the single `ServiceCost` ("Amazon EC2", "100.00",
"USD"), and rendering it outputs the line with the name padded to 30
characters followed by ": 100.00 USD". -/
theorem C7_round_trip (now days : Int) (hdays : 0 < days) :
    (GetCostsByService (fun _ => Except.ok sampleResponse) now days).outcome =
      Outcome.ok sampleReport ∧
    ("  " ++ padRight "Amazon EC2" 30 ++ ": 100.00 USD") ∈ displayCosts sampleReport days ∧
    (padRight "Amazon EC2" 30).length = 30 := by
  have hd : ¬ days ≤ 0 := by omega
  refine ⟨?_, ?_, by decide⟩
  · unfold GetCostsByService
    rw [if_neg hd]
    rfl
  · have hlines : displayCosts sampleReport days =
        ("AWS Costs for the last " ++ toString days ++ " days:") ::
        "=====================================" ::
        "Period: 2024-01-01 to 2024-01-31" ::
        ("  " ++ padRight "Amazon EC2" 30 ++ ": 100.00 USD") :: [""] := rfl
    rw [hlines]
    exact List.mem_cons_of_mem _ (List.mem_cons_of_mem _ (List.mem_cons_of_mem _
      (List.mem_cons_self _ _)))

/-- Witness for C7 at `days = 30`. -/
theorem C7_round_trip_witness :
    (GetCostsByService (fun _ => Except.ok sampleResponse) 19753 30).outcome =
      Outcome.ok sampleReport ∧
    ("  " ++ padRight "Amazon EC2" 30 ++ ": 100.00 USD") ∈ displayCosts sampleReport 30 ∧
    (padRight "Amazon EC2" 30).length = 30 :=
  C7_round_trip 19753 30 (by decide)

/-- Claim C10: the builder dereferences each bucket's `TimePeriod`, `Start`
and `End` unconditionally: when every bucket carries all three, it returns a
report, and when any bucket lacks one of them it panics instead of skipping
the bucket or returning an error. -/
theorem C10_nil_period_panics (bs : List ResultByTime) (now days : Int)
    (hdays : 0 < days) :
    ((∀ r ∈ bs, (bucketBounds r).isSome) →
      ∃ cs, (GetCostsByService (fun _ => Except.ok { ResultsByTime := bs }) now days).outcome =
        Outcome.ok cs) ∧
    ((∃ r ∈ bs, bucketBounds r = none) →
      (GetCostsByService (fun _ => Except.ok { ResultsByTime := bs }) now days).outcome =
        Outcome.panic) := by
  have hd : ¬ days ≤ 0 := by omega
  constructor
  · intro hv
    obtain ⟨cs, hcs, -, -⟩ := processAll_valid bs hv
    exact ⟨cs, by simp [GetCostsByService, hd, hcs]⟩
  · intro hbad
    have hn := processAll_none bs hbad
    simp [GetCostsByService, hd, hn]

/-- Witness for C10: a bucket with a nil `TimePeriod` crashes the builder. -/
theorem C10_nil_period_panics_witness :
    (GetCostsByService (fun _ => Except.ok { ResultsByTime := [nilPeriodBucket] }) 0 30).outcome =
      Outcome.panic :=
  (C10_nil_period_panics [nilPeriodBucket] 0 30 (by decide)).2
    ⟨nilPeriodBucket, by simp, rfl⟩

/-- Claim C2: a grouped entry whose metric map lacks the blended-cost metric,
or whose metric lacks its amount or unit, contributes no `ServiceCost` to its
period, adds the diagnostic warning in its place, leaves the number of
periods unchanged, and causes no error. -/
theorem C2_missing_metric_skipped (s e : String) (pre post : List Group) (g : Group)
    (hbad : g.Metrics.lookup MetricBlendedCost = none ∨
      ∃ m, g.Metrics.lookup MetricBlendedCost = some m ∧
        (m.Amount = none ∨ m.Unit = none)) :
    (processGroups s e (pre ++ g :: post)).1 = (processGroups s e (pre ++ post)).1 ∧
    (processGroups s e (pre ++ g :: post)).2 =
      (processGroups s e pre).2 ++ warnOf s e g :: (processGroups s e post).2 ∧
    ∀ (bs1 bs2 : List ResultByTime) (now days : Int),
      0 < days → (∀ r ∈ bs1, (bucketBounds r).isSome) →
      (∀ msg,
        (GetCostsByService
          (constClient ⟨bs1 ++ mkBucket s e (pre ++ g :: post) :: bs2⟩) now days).outcome ≠
          Outcome.err msg) ∧
      warnOf s e g ∈
        (GetCostsByService
          (constClient ⟨bs1 ++ mkBucket s e (pre ++ g :: post) :: bs2⟩) now days).warnings ∧
      ∀ cs,
        (GetCostsByService
          (constClient ⟨bs1 ++ mkBucket s e (pre ++ g :: post) :: bs2⟩) now days).outcome =
          Outcome.ok cs →
        ∃ cs',
          (GetCostsByService
            (constClient ⟨bs1 ++ mkBucket s e (pre ++ post) :: bs2⟩) now days).outcome =
            Outcome.ok cs' ∧ cs'.length = cs.length := by
  have hpg : processGroup g = none := by
    rcases hbad with hl | ⟨⟨a, u⟩, hl, hmu⟩
    · simp [processGroup, hl]
    · simp only at hmu
      rcases hmu with ha | hu
      · subst ha
        simp [processGroup, hl]
      · subst hu
        cases a <;> simp [processGroup, hl]
  have hA : processGroups s e (pre ++ g :: post) =
      ((processGroups s e pre).1 ++ (processGroups s e post).1,
       (processGroups s e pre).2 ++ warnOf s e g :: (processGroups s e post).2) := by
    rw [processGroups_append]
    simp [processGroups, hpg]
  have hA' : processGroups s e (pre ++ post) =
      ((processGroups s e pre).1 ++ (processGroups s e post).1,
       (processGroups s e pre).2 ++ (processGroups s e post).2) :=
    processGroups_append s e pre post
  refine ⟨by rw [hA, hA'], by rw [hA], ?_⟩
  intro bs1 bs2 now days hdays hv1
  obtain ⟨cs1, hcs1, hfstW, hsndW⟩ :=
    processAll_append_valid bs1 (mkBucket s e (pre ++ g :: post) :: bs2) hv1
  obtain ⟨cs1', hcs1', hfstO, hsndO⟩ :=
    processAll_append_valid bs1 (mkBucket s e (pre ++ post) :: bs2) hv1
  have hcs1eq : cs1 = cs1' := by
    rw [hcs1] at hcs1'
    exact Option.some.inj hcs1'
  rw [← hcs1eq] at hfstO
  have hrunW := GetCostsByService_ok
    (constClient ⟨bs1 ++ mkBucket s e (pre ++ g :: post) :: bs2⟩) now days
    ⟨bs1 ++ mkBucket s e (pre ++ g :: post) :: bs2⟩ hdays rfl
  have hrunO := GetCostsByService_ok
    (constClient ⟨bs1 ++ mkBucket s e (pre ++ post) :: bs2⟩) now days
    ⟨bs1 ++ mkBucket s e (pre ++ post) :: bs2⟩ hdays rfl
  have hconsW := processAll_cons_some s e (pre ++ g :: post) bs2
  have hconsO := processAll_cons_some s e (pre ++ post) bs2
  refine ⟨?_, ?_, ?_⟩
  · intro msg
    rw [hrunW]
    cases hp : (processAll (bs1 ++ mkBucket s e (pre ++ g :: post) :: bs2)).1 <;> simp [hp]
  · rw [hrunW]
    show warnOf s e g ∈
      (processAll (bs1 ++ mkBucket s e (pre ++ g :: post) :: bs2)).2
    rw [hsndW]
    simp only [mkBucket] at hconsW ⊢
    rw [hconsW]
    simp [hA]
  · intro cs hok
    rw [hrunW] at hok
    simp only at hok
    rcases hp : (processAll (bs1 ++ mkBucket s e (pre ++ g :: post) :: bs2)).1 with _ | l
    · rw [hp] at hok
      simp at hok
    · rw [hp] at hok
      simp only [Outcome.ok.injEq] at hok
      subst hok
      rw [hfstW] at hp
      simp only [mkBucket] at hconsW hp
      rw [hconsW] at hp
      rcases hp2 : (processAll bs2).1 with _ | cs2
      · rw [hp2] at hp
        simp at hp
      · rw [hp2] at hp
        simp only [Option.map] at hp
        simp only [Option.some.injEq] at hp
        refine ⟨cs1 ++
          { Start := s, End := e, ServiceCosts := (processGroups s e (pre ++ post)).1 } :: cs2,
          ?_, ?_⟩
        · rw [hrunO]
          show (match (processAll (bs1 ++ mkBucket s e (pre ++ post) :: bs2)).1 with
            | none => Outcome.panic
            | some cs => Outcome.ok cs) = _
          rw [hfstO]
          simp only [mkBucket]
          rw [hconsO]
          simp only [hp2, Option.map]
        · rw [← hp]
          simp [hA, hA']

/-- Witness for C2 on the "metric not found" fixture entry. -/
theorem C2_missing_metric_skipped_witness :
    (processGroups "2024-01-01" "2024-01-31" ([] ++ badGroup :: [])).1 =
      (processGroups "2024-01-01" "2024-01-31" ([] ++ [])).1 :=
  (C2_missing_metric_skipped "2024-01-01" "2024-01-31" [] [] badGroup (Or.inl rfl)).1

end CostTracker
